import Mathlib

/-!
Shallow embedding of the conversion core of src/app.py (raw-file-converter):
the CSV upload pipeline that turns tabular settlement instructions into the
tag-delimited depository format, together with the daily sequence counter and
the content-hash deduplication index.  Python string builtins and the two
library calls (dateutil date parsing, float parsing and formatting) are
modelled on character lists and exact rationals so every definition is
executable by the kernel.
-/

set_option maxRecDepth 100000

deriving instance DecidableEq for Except

namespace RawFileConverter

/-! ## Python string builtins, modelled on character lists -/

/-- Python str.strip as used in upload_csv: remove surrounding whitespace. -/
def pTrim (s : String) : String :=
  String.mk (((s.toList.dropWhile Char.isWhitespace).reverse.dropWhile Char.isWhitespace).reverse)

/-- Splitting a character list at every separator matching p, keeping empty pieces. -/
def splitCharsAux (p : Char → Bool) : List Char → List Char → List (List Char)
  | [], acc => [acc.reverse]
  | c :: cs, acc =>
    if p c then acc.reverse :: splitCharsAux p cs [] else splitCharsAux p cs (c :: acc)

def splitChars (p : Char → Bool) (s : String) : List String :=
  (splitCharsAux p s.toList []).map String.mk

/-- Python str.splitlines restricted to newline-separated text: a trailing
newline does not contribute an extra empty line, and the empty string has no
lines at all. -/
def splitlines (s : String) : List String :=
  let parts := splitChars (fun c => c = '\n') s
  if parts.getLast? = some "" then parts.dropLast else parts

/-- Model of csv.reader row splitting for inputs that use no quoting: each
line splits on commas, and an empty line yields an empty record. -/
def csvReadLine (s : String) : List String :=
  if s = "" then [] else splitChars (fun c => c = ',') s

/-- Python s.replace with a comma pattern and empty replacement, as used on
Qty and Conamt: every comma is removed. -/
def stripCommas (s : String) : String :=
  String.mk (s.toList.filter (fun c => c ≠ ','))

/-- Python s[:n] on a string of characters. -/
def strTake (s : String) (n : Nat) : String := String.mk (s.toList.take n)

/-- Python s[n:] on a string of characters. -/
def strDrop (s : String) (n : Nat) : String := String.mk (s.toList.drop n)

/-- Python s.startswith(p). -/
def strStartsWith (s p : String) : Bool := p.toList.isPrefixOf s.toList

/-- Python str.zfill: left-pad with zeros to width w, keeping a leading sign
character in front of the padding. -/
def zfill (s : String) (w : Nat) : String :=
  if w ≤ s.length then s
  else
    let pad := String.mk (List.replicate (w - s.length) '0')
    if strStartsWith s "-" || strStartsWith s "+" then
      strTake s 1 ++ pad ++ strDrop s 1
    else pad ++ s

/-- str(n).zfill(w) for a natural number n. -/
def natZfill (n w : Nat) : String := zfill (Nat.repr n) w

/-- Python ''.join-style concatenation with a separator, as in '\n'.join. -/
def joinSep (sep : String) : List String → String
  | [] => ""
  | [x] => x
  | x :: y :: xs => x ++ sep ++ joinSep sep (y :: xs)

/-! ## Python dict with string keys, as a lookup function -/

def Dict : Type := String → Option String

def Dict.empty : Dict := fun _ => none

def Dict.insert (d : Dict) (k v : String) : Dict :=
  fun x => if x = k then some v else d x

def Dict.erase (d : Dict) (k : String) : Dict :=
  fun x => if x = k then none else d x

/-- Python d.get(k, dflt). -/
def Dict.get (d : Dict) (k dflt : String) : String := (d k).getD dflt

/-- Value-wise map, modelling the stripping dict comprehension of line 212. -/
def Dict.mapVals (f : String → String) (d : Dict) : Dict := fun x => (d x).map f

/-- Python merge of two dicts where the second one wins, as in the
constants-then-row merge of line 267. -/
def Dict.union (base d : Dict) : Dict :=
  fun x => (d x).orElse (fun _ => base x)

/-- Python dict(zip(ks, vs)): positional pairing truncated to the shorter
list, later duplicate keys overwriting earlier ones. -/
def zipDict (ks vs : List String) : Dict :=
  (List.zip ks vs).foldl (fun d kv => Dict.insert d kv.1 kv.2) Dict.empty

/-- Python truth test "k in d and d[k]": the key is present with a non-empty
value. -/
def hasTruthy (d : Dict) (k : String) : Bool :=
  match d k with
  | some v => v ≠ ""
  | none => false

/-! ## Dates -/

structure Date where
  year : Nat
  month : Nat
  day : Nat
deriving DecidableEq, Repr

/-- strftime with a day month year layout, two plus two plus four digits. -/
def Date.fmtDMY (d : Date) : String :=
  natZfill d.day 2 ++ natZfill d.month 2 ++ natZfill d.year 4

/-- strftime with the dashed year month day layout used to key the counter. -/
def Date.fmtISO (d : Date) : String :=
  natZfill d.year 4 ++ "-" ++ natZfill d.month 2 ++ "-" ++ natZfill d.day 2

def isLeap (y : Nat) : Bool := (y % 4 = 0 && y % 100 ≠ 0) || y % 400 = 0

def daysInMonth (y m : Nat) : Nat :=
  if m = 2 then (if isLeap y then 29 else 28)
  else if m = 4 ∨ m = 6 ∨ m = 9 ∨ m = 11 then 30
  else 31

def mkValidDate (dd mm yyyy : Nat) : Option Date :=
  if 1 ≤ mm ∧ mm ≤ 12 ∧ 1 ≤ dd ∧ dd ≤ daysInMonth yyyy mm then some ⟨yyyy, mm, dd⟩
  else none

def isDigitStr (s : String) : Bool := s.length > 0 && s.toList.all Char.isDigit

def digitsToNat (cs : List Char) : Nat :=
  cs.foldl (fun n c => n * 10 + (c.toNat - 48)) 0

/-- Model of the library call dateutil parser.parse with dayfirst set,
followed by strftime, restricted to purely numeric day month year tokens
separated by slash, dash, dot or space, with a four digit year: the
day-then-month reading is tried first and the two are swapped when that
reading is not a valid calendar date, the whole parse failing when neither
reading is valid. -/
def parseDayFirst (s : String) : Option Date :=
  match splitChars (fun c => c = '/' || c = '-' || c = '.' || c = ' ') (pTrim s) with
  | [a, b, c] =>
    if isDigitStr a && isDigitStr b && isDigitStr c && c.length = 4 then
      let na := digitsToNat a.toList
      let nb := digitsToNat b.toList
      let nc := digitsToNat c.toList
      match mkValidDate na nb nc with
      | some d => some d
      | none => mkValidDate nb na nc
    else none
  | _ => none

/-! ## Python float parsing and fixed-point formatting, on exact decimals

The numeric value of a parsed literal is represented exactly as
mant times ten to the exp10, so that formatting is pure integer
arithmetic and evaluates inside the kernel. -/

structure PyDecimal where
  mant : Int
  exp10 : Int
deriving DecidableEq, Repr

/-- Model of the builtin float(s) for ordinary decimal literals: optional
sign, integer and fraction digits with at least one digit overall, optional
exponent part.  Special values such as infinities are outside this model. -/
def parseFloat (s : String) : Option PyDecimal :=
  let cs := (pTrim s).toList
  let sgnSplit : Int × List Char :=
    match cs with
    | '+' :: t => (1, t)
    | '-' :: t => (-1, t)
    | _ => (1, cs)
  let sgn := sgnSplit.1
  let cs1 := sgnSplit.2
  let ip := cs1.takeWhile Char.isDigit
  let rest := cs1.dropWhile Char.isDigit
  let fpSplit : List Char × List Char :=
    match rest with
    | '.' :: t => (t.takeWhile Char.isDigit, t.dropWhile Char.isDigit)
    | _ => ([], rest)
  let fp := fpSplit.1
  let rest2 := fpSplit.2
  if ip.isEmpty && fp.isEmpty then none
  else
    let mant : Int := sgn * (digitsToNat (ip ++ fp) : Int)
    match rest2 with
    | [] => some ⟨mant, -(fp.length : Int)⟩
    | e :: t =>
      if e = 'e' || e = 'E' then
        let esgnSplit : Int × List Char :=
          match t with
          | '+' :: u => (1, u)
          | '-' :: u => (-1, u)
          | _ => (1, t)
        let ed := esgnSplit.2.takeWhile Char.isDigit
        let rest3 := esgnSplit.2.dropWhile Char.isDigit
        if ed.isEmpty || !rest3.isEmpty then none
        else some ⟨mant, esgnSplit.1 * (digitsToNat ed : Int) - (fp.length : Int)⟩
      else none

/-- Nearest-integer division with ties to even, on a positive denominator:
the rounding Python applies when formatting a value to fixed precision. -/
def roundHalfEvenDiv (num den : Int) : Int :=
  let f := Int.fdiv num den
  let r := num - f * den
  if 2 * r < den then f
  else if den < 2 * r then f + 1
  else if f % 2 = 0 then f else f + 1

/-- Model of the format specifier with a fixed number of fraction digits, as
in the Qty and Conamt formatting, applied to an exact decimal value. -/
def formatFixed (x : PyDecimal) (prec : Nat) : String :=
  let e := x.exp10 + (prec : Int)
  let n := if 0 ≤ e then x.mant * 10 ^ e.toNat else roundHalfEvenDiv x.mant (10 ^ (-e).toNat)
  let sgn := if n < 0 then "-" else ""
  let m := n.natAbs
  sgn ++ Nat.repr (m / 10 ^ prec) ++ "." ++ natZfill (m % 10 ^ prec) prec

/-! ## Constants of app.py (lines 25 to 44) -/

def Bnfcry : String := "1207650000865934"

/-- The constant literal RAW_HEADER_PREFIX of app.py line 27. -/
def RAW_HEADER_PFX : String := "076500DPADM"

/-- CONSTANT_FIELDS of app.py lines 28 to 34. -/
def CONSTANT_FIELDS : Dict := fun k =>
  if k = "Bnfcry" then some Bnfcry
  else if k = "Flg" then some "S"
  else if k = "Trf" then some "X"
  else if k = "Rsn" then some "2"
  else if k = "Paymod" then some "2"
  else none

def RAW_ORDER_NSDL : List String :=
  ["Tp", "Dt", "Bnfcry", "ISIN", "Qty", "Flg", "Trf", "Clnt", "Brkr",
   "Rsn", "Conamt", "Paymod", "Bnkno", "Bnkname", "Brnchname", "Xferdt", "Chqrefno"]

def RAW_ORDER_CDSL : List String :=
  ["Tp", "Dt", "Bnfcry", "CtrPty", "ISIN", "Qty", "Flg", "Trf",
   "Rsn", "Conamt", "Paymod", "Bnkno", "Bnkname", "Brnchname", "Xferdt", "Chqrefno"]

/-! ## Sequence counter (app.py lines 87 to 135)

Both backends are modelled as pure state transformers: the current day
(already rendered the way the code renders it) comes in as an argument, the
persisted state comes in and goes out explicitly. -/

/-- The FileCounter database row: last_id and last_date. -/
structure CounterState where
  last_id : Nat
  last_date : String
deriving DecidableEq, Repr

/-- get_next_file_id on the primary database backend: no row means
initialize to one for today; a stale date resets to one; otherwise
increment and return the new id. -/
def get_next_file_id (today : String) : Option CounterState → Nat × CounterState
  | none => (1, ⟨1, today⟩)
  | some c =>
    if c.last_date ≠ today then (1, ⟨1, today⟩)
    else (c.last_id + 1, ⟨c.last_id + 1, today⟩)

/-- The JSON object stored in counter.json by the fallback backend; either
key may be absent. -/
structure FileCounterJson where
  last_id : Option Nat
  last_date : Option String
deriving DecidableEq, Repr

/-- get_file_counter, the filesystem fallback backend: a missing file means
initialize to one for today; a stale or missing date resets to one;
otherwise one more than the stored id, with zero standing in for a missing
id. -/
def get_file_counter (today : String) : Option FileCounterJson → Nat × FileCounterJson
  | none => (1, ⟨some 1, some today⟩)
  | some d =>
    if d.last_date ≠ some today then (1, ⟨some 1, some today⟩)
    else
      let n := d.last_id.getD 0 + 1
      (n, ⟨some n, d.last_date⟩)

/-! ## Per-row classification, normalization and encoding
(app.py lines 211 to 272) -/

/-- The row-scoped failures of the body loop, each carrying the offending
value exactly as interpolated into the returned message. -/
inductive RowError where
  | invalidDt (v : String)
  | invalidCtrPty (v : String)
  | invalidQty (v : String)
  | invalidConamt (v : String)
deriving DecidableEq, Repr

/-- Lines 214 to 219: normalize a present, non-empty Dt to the eight digit
day month year form, failing on an unparseable value. -/
def normDt (d : Dict) : Except RowError Dict :=
  if hasTruthy d "Dt" then
    match parseDayFirst (Dict.get d "Dt" "") with
    | some dt => .ok (Dict.insert d "Dt" dt.fmtDMY)
    | none => .error (.invalidDt (Dict.get d "Dt" ""))
  else .ok d

/-- Lines 247 to 260, one numeric field: strip commas; an empty value is
left alone; otherwise parse as a float and re-render with the given number
of fraction digits, failing with the original (comma-bearing) value. -/
def canonNum (d : Dict) (key : String) (prec : Nat) (mkErr : String → RowError) :
    Except RowError Dict :=
  if stripCommas (Dict.get d key "") = "" then .ok d
  else
    match parseFloat (stripCommas (Dict.get d key "")) with
    | some q => .ok (Dict.insert d key (formatFixed q prec))
    | none => .error (mkErr (Dict.get d key ""))

/-- One rendered tag of line 271: open tag, value (empty when absent),
close tag. -/
def tagOf (d : Dict) (k : String) : String :=
  "<" ++ k ++ ">" ++ Dict.get d k "" ++ "</" ++ k ++ ">"

/-- Line 271: the tags of the order list, concatenated with no separator. -/
def renderTags (d : Dict) : List String → String
  | [] => ""
  | k :: ks => tagOf d k ++ renderTags d ks

/-- Lines 247 to 272, after classification: canonicalize Qty, Conamt and
Chqrefno, merge the constants with the row (row values winning), overwrite
Tp with the classified type code, and render the ordered tag line. -/
def encodeTail (d3 : Dict) (tp : String) (order : List String) : Except RowError String :=
  match canonNum d3 "Qty" 3 RowError.invalidQty with
  | .error e => .error e
  | .ok d4 =>
    match canonNum d4 "Conamt" 2 RowError.invalidConamt with
    | .error e => .error e
    | .ok d5 =>
      let chqref := pTrim (Dict.get d5 "Chqrefno" "")
      let d6 := Dict.insert d5 "Chqrefno" (if chqref ≠ "" then zfill chqref 8 else "00000000")
      let merged := Dict.insert (Dict.union CONSTANT_FIELDS d6) "Tp" tp
      .ok (renderTags merged order)

/-- Lines 221 to 245 given the date-normalized row dict: force Xferdt to
the normalized Dt, check the counter-party identifier, classify NSDL versus
CDSL by the case-sensitive leading-characters test, split the identifier
into Brkr and Clnt for NSDL or keep it whole (erasing stray Clnt and Brkr)
for CDSL, then encode with the matching tag order. -/
def classifyAndEncode (d1 : Dict) : Except RowError String :=
  let d2 := Dict.insert d1 "Xferdt" (Dict.get d1 "Dt" "")
  let ctrpty := Dict.get d2 "CtrPty" ""
  if ctrpty = "" ∨ ctrpty.length ≠ 16 then .error (.invalidCtrPty ctrpty)
  else
    let is_nsdl := strStartsWith ctrpty "IN"
    let tp := if is_nsdl then "4" else "5"
    let d3 :=
      if is_nsdl then
        Dict.insert (Dict.insert d2 "Brkr" (strTake ctrpty 8)) "Clnt" (strDrop ctrpty 8)
      else
        Dict.erase (Dict.erase (Dict.insert d2 "CtrPty" ctrpty) "Clnt") "Brkr"
    let order := if is_nsdl then RAW_ORDER_NSDL else RAW_ORDER_CDSL
    encodeTail d3 tp order

/-- The body loop of lines 211 to 272 for one data row: strip values,
normalize Dt, then classify and encode. -/
def processRow (headers row : List String) : Except RowError String :=
  match normDt (Dict.mapVals pTrim (zipDict headers row)) with
  | .error e => .error e
  | .ok d1 => classifyAndEncode d1

/-- The stripped counter-party identifier of a raw row, before any
normalization: the value the CtrPty check and the classification read. -/
def rowCtrPty (headers row : List String) : String :=
  Dict.get (Dict.mapVals pTrim (zipDict headers row)) "CtrPty" ""

/-! ## Batch validation and the upload pipeline (app.py lines 145 to 301) -/

/-- The two failures the per-row date loop of lines 184 to 193 can report. -/
inductive DateCheckError where
  | mismatch (got expected : String)
  | badFormat (v : String)
deriving DecidableEq, Repr

/-- The failures detected before a sequence id is allocated. -/
inductive ValidationError where
  | formatInvalid
  | missingDt
  | invalidDtFirst (v : String)
  | dateErr (e : DateCheckError)
deriving DecidableEq, Repr

/-- The produced output: raw filename and raw content, as stored in the
UploadedFile record and written to the reconverted folder. -/
structure Artifact where
  filename : String
  content : String
deriving DecidableEq, Repr

/-- The possible outcomes of one upload_csv call (the no-file branch of
line 148 is outside the conversion core). -/
inductive UploadResult where
  | duplicate (a : Artifact)
  | validationFailed (e : ValidationError)
  | rowFailed (e : RowError)
  | success (a : Artifact)
deriving DecidableEq, Repr

/-- Persistent server state: the FileCounter row and the hash-keyed
UploadedFile records that the duplicate check consults. -/
structure ServerState where
  counter : Option CounterState
  index : String → Option Artifact

/-- Lines 184 to 193: every data row with a present, non-empty Dt must
normalize to the established file date. -/
def checkDates (headers : List String) (file_date : String) :
    List (List String) → Except DateCheckError Unit
  | [] => .ok ()
  | row :: rest =>
    let d := zipDict headers row
    if hasTruthy d "Dt" then
      match parseDayFirst (Dict.get d "Dt" "") with
      | some dt =>
        if dt.fmtDMY ≠ file_date then .error (.mismatch dt.fmtDMY file_date)
        else checkDates headers file_date rest
      | none => .error (.badFormat (Dict.get d "Dt" ""))
    else checkDates headers file_date rest

/-- Lines 174 to 193 given the stripped headers, the first data row and the
remaining data rows: establish the file date from the first row (failing
when Dt is absent, empty or unparseable) and check every data row against
it. -/
def validateRows (headers dr1 : List String) (drs : List (List String)) :
    Except ValidationError (List String × List (List String) × String) :=
  if hasTruthy (zipDict headers dr1) "Dt" then
    match parseDayFirst (Dict.get (zipDict headers dr1) "Dt" "") with
    | some d =>
      match checkDates headers d.fmtDMY (dr1 :: drs) with
      | .ok _ => .ok (headers, dr1 :: drs, d.fmtDMY)
      | .error e => .error (.dateErr e)
    | none => .error (.invalidDtFirst (Dict.get (zipDict headers dr1) "Dt" ""))
  else .error .missingDt

/-- Lines 163 to 193: parse the CSV, require at least a header and one data
row, strip the header names, then validate the dates.  Returns the stripped
headers, the data rows and the normalized file date. -/
def validateBatch (csv : String) :
    Except ValidationError (List String × List (List String) × String) :=
  match (splitlines csv).map csvReadLine with
  | [] => .error .formatInvalid
  | [_] => .error .formatInvalid
  | r0 :: dr1 :: drs => validateRows (r0.map pTrim) dr1 drs

/-- upload_csv (lines 145 to 301) on the primary persistence path: hash the
content; a dedup hit short-circuits with the stored artifact; otherwise
validate, allocate the next sequence id, build the header and filename from
the current calendar date, encode every row, and on success record the new
artifact under its hash.  The hash function stands in for the sha256 hex
digest of line 153, of which only determinism is used. -/
def upload_csv (hash : String → String) (today : Date) (csv : String) (st : ServerState) :
    UploadResult × ServerState :=
  let file_hash := hash csv
  match st.index file_hash with
  | some a => (.duplicate a, st)
  | none =>
    match validateBatch csv with
    | .error e => (.validationFailed e, st)
    | .ok (headers, data_rows, _file_date) =>
      let row_count := natZfill data_rows.length 6
      let alloc := get_next_file_id today.fmtISO st.counter
      let file_id := natZfill alloc.1 5
      let todays_date := today.fmtDMY
      let filename := "18" ++ Bnfcry ++ "." ++ todays_date ++ "." ++ file_id
      let raw_header := RAW_HEADER_PFX ++ " " ++ row_count ++ file_id ++ todays_date
      match data_rows.mapM (processRow headers) with
      | .error e => (.rowFailed e, { st with counter := some alloc.2 })
      | .ok body =>
        let raw_content := joinSep "\n" (raw_header :: (body ++ [""]))
        let art : Artifact := ⟨filename, raw_content⟩
        (.success art,
         { counter := some alloc.2,
           index := fun h => if h = file_hash then some art else st.index h })

/-! ## Concrete fixtures used by the witnesses and counterexamples -/

/-- A stand-in for the sha256 hex digest: any deterministic function works
for the properties proved here. -/
def idHash : String → String := fun s => s

/-- Fresh server state: no counter row, no recorded uploads. -/
def stInit0 : ServerState := ⟨none, fun _ => none⟩

def dJan1 : Date := ⟨2025, 1, 1⟩

def hdrC : List String := ["Dt", "CtrPty", "Qty", "Conamt", "Chqrefno"]

def csvDup : String := "Dt,CtrPty\n01/01/2025,INXXXXXXXXXXXXXX"

def csvBadCtr : String := "Dt,CtrPty\n01/01/2025,SHORT"

def csvIssue : String := "Dt,CtrPty\n01/02/2024,INXXXXXXXXXXXXXX"

def csvRagged : String := "Dt,CtrPty\n01/01/2025,INXXXXXXXXXXXXXX,EXTRA"

def csvMix : String := "Dt,CtrPty\n01/02/2024,INXXXXXXXXXXXXXX\n02-01-2024,INXXXXXXXXXXXXXX"

def csvMix2 : String := "Dt,CtrPty\n01/02/2024,INXXXXXXXXXXXXXX\n03/02/2024,INXXXXXXXXXXXXXX"

def runDup : UploadResult × ServerState := upload_csv idHash dJan1 csvDup stInit0

def artDup : Artifact :=
  match runDup.1 with
  | .success a => a
  | _ => ⟨"", ""⟩

def runIssue : UploadResult × ServerState := upload_csv idHash ⟨2025, 5, 7⟩ csvIssue stInit0

def artIssue : Artifact :=
  match runIssue.1 with
  | .success a => a
  | _ => ⟨"", ""⟩

def isSuccessB : UploadResult → Bool
  | .success _ => true
  | _ => false

/-- The state after the first successful submission of csvDup. -/
def st1Dup : ServerState := runDup.2

/-- A length-15 counter-party identifier row. -/
def row15 : List String := ["01/01/2025", "INAAAAABBBBBBBB"]

def hdr2 : List String := ["Dt", "CtrPty"]

/-- The date-normalized dict of row15, used to discharge the date hypothesis
of the counter-party check theorem. -/
def d1W : Dict :=
  match normDt (Dict.mapVals pTrim (zipDict hdr2 row15)) with
  | .ok d => d
  | .error _ => Dict.empty

def rowC6 : List String := ["01/01/2025", "INAAAAAABBBBBBBB", "", "", ""]

def lineC6 : String :=
  match processRow hdrC rowC6 with
  | .ok l => l
  | .error _ => ""

def rowC10 : List String := ["01/01/2025", "inAAAAAABBBBBBBB", "", "", ""]

def lineC10 : String :=
  match processRow hdrC rowC10 with
  | .ok l => l
  | .error _ => ""

/-! ## Theorems -/

/-! ### Dictionary and stage lemmas -/

theorem Dict.insert_self (d : Dict) (k v : String) : Dict.insert d k v k = some v := by
  simp [Dict.insert]

theorem Dict.insert_ne (d : Dict) (k v x : String) (h : x ≠ k) : Dict.insert d k v x = d x := by
  simp [Dict.insert, h]

theorem Dict.erase_ne (d : Dict) (k x : String) (h : x ≠ k) : Dict.erase d k x = d x := by
  simp [Dict.erase, h]

theorem Dict.erase_self (d : Dict) (k : String) : Dict.erase d k k = none := by
  simp [Dict.erase]

theorem get_insert_ne (d : Dict) (k v x dflt : String) (h : x ≠ k) :
    Dict.get (Dict.insert d k v) x dflt = Dict.get d x dflt := by
  unfold Dict.get
  rw [Dict.insert_ne d k v x h]

theorem get_ctrpty_xferdt (d : Dict) (v : String) :
    Dict.get (Dict.insert d "Xferdt" v) "CtrPty" "" = Dict.get d "CtrPty" "" :=
  get_insert_ne d _ v _ "" (by decide)

theorem get_of_some (d : Dict) (k v dflt : String) (h : d k = some v) :
    Dict.get d k dflt = v := by
  unfold Dict.get
  rw [h]
  rfl

theorem normDt_ne_dt (d d1 : Dict) (h : normDt d = .ok d1) (x : String) (hx : x ≠ "Dt") :
    d1 x = d x := by
  unfold normDt at h
  split at h
  · split at h
    · injection h with h2
      subst h2
      exact Dict.insert_ne d "Dt" _ x hx
    · exact Except.noConfusion h
  · injection h with h2
    subst h2
    rfl

theorem canonNum_ne (d : Dict) (key : String) (prec : Nat) (mkErr : String → RowError)
    (d4 : Dict) (h : canonNum d key prec mkErr = .ok d4) (x : String) (hx : x ≠ key) :
    d4 x = d x := by
  unfold canonNum at h
  split at h
  · injection h with h2
    subst h2
    rfl
  · split at h
    · injection h with h2
      subst h2
      exact Dict.insert_ne d key _ x hx
    · exact Except.noConfusion h

theorem canonNum_error (d : Dict) (key : String) (prec : Nat) (mkErr : String → RowError)
    (e : RowError) (h : canonNum d key prec mkErr = .error e) : ∃ v, e = mkErr v := by
  unfold canonNum at h
  split at h
  · exact Except.noConfusion h
  · split at h
    · exact Except.noConfusion h
    · injection h with h2
      exact ⟨_, h2.symm⟩

theorem encodeTail_ok (d3 : Dict) (tp : String) (order : List String) (line : String)
    (h : encodeTail d3 tp order = .ok line) :
    ∃ d6 : Dict,
      line = renderTags (Dict.insert (Dict.union CONSTANT_FIELDS d6) "Tp" tp) order ∧
      ∀ x, x ≠ "Qty" → x ≠ "Conamt" → x ≠ "Chqrefno" → d6 x = d3 x := by
  unfold encodeTail at h
  split at h
  · exact Except.noConfusion h
  case _ d4 hq =>
    split at h
    · exact Except.noConfusion h
    case _ d5 hc =>
      simp only [Except.ok.injEq] at h
      refine ⟨_, h.symm, ?_⟩
      intro x hx1 hx2 hx3
      rw [Dict.insert_ne _ _ _ _ hx3, canonNum_ne _ _ _ _ _ hc x hx2,
        canonNum_ne _ _ _ _ _ hq x hx1]

theorem encodeTail_error_shape (d3 : Dict) (tp : String) (order : List String)
    (e : RowError) (h : encodeTail d3 tp order = .error e) :
    (∃ v, e = .invalidQty v) ∨ (∃ v, e = .invalidConamt v) := by
  unfold encodeTail at h
  split at h
  case _ e2 hq =>
    injection h with h2
    subst h2
    exact .inl (canonNum_error _ _ _ _ _ hq)
  case _ d4 hq =>
    split at h
    case _ e2 hc =>
      injection h with h2
      subst h2
      exact .inr (canonNum_error _ _ _ _ _ hc)
    case _ d5 hc =>
      exact Except.noConfusion h

theorem union_tp_get (d6 : Dict) (tp x : String) (hx : x ≠ "Tp")
    (hconst : CONSTANT_FIELDS x = none) :
    Dict.insert (Dict.union CONSTANT_FIELDS d6) "Tp" tp x = d6 x := by
  rw [Dict.insert_ne _ _ _ _ hx]
  unfold Dict.union
  cases hd : d6 x with
  | none => simp [Option.orElse, hconst]
  | some v => simp [Option.orElse]

theorem classifyAndEncode_ok_nsdl (d1 : Dict) (line : String)
    (hb : strStartsWith (Dict.get d1 "CtrPty" "") "IN" = true)
    (h : classifyAndEncode d1 = .ok line) :
    ∃ merged : Dict,
      line = renderTags merged RAW_ORDER_NSDL ∧
      merged "Tp" = some "4" ∧
      merged "Clnt" = some (strDrop (Dict.get d1 "CtrPty" "") 8) ∧
      merged "Brkr" = some (strTake (Dict.get d1 "CtrPty" "") 8) := by
  simp only [classifyAndEncode, get_ctrpty_xferdt] at h
  split at h
  · exact Except.noConfusion h
  · obtain ⟨d6, hline, hagree⟩ := encodeTail_ok _ _ _ _ h
    refine ⟨_, hline, Dict.insert_self _ _ _, ?_, ?_⟩
    · rw [union_tp_get _ _ _ (by decide) (by decide),
        hagree "Clnt" (by decide) (by decide) (by decide), Dict.insert_self]
    · rw [union_tp_get _ _ _ (by decide) (by decide),
        hagree "Brkr" (by decide) (by decide) (by decide),
        Dict.insert_ne _ _ _ _ (by decide), Dict.insert_self]

theorem classifyAndEncode_ok_cdsl (d1 : Dict) (line : String)
    (hb : strStartsWith (Dict.get d1 "CtrPty" "") "IN" = false)
    (h : classifyAndEncode d1 = .ok line) :
    ∃ merged : Dict,
      line = renderTags merged RAW_ORDER_CDSL ∧
      merged "Tp" = some "5" ∧
      merged "CtrPty" = some (Dict.get d1 "CtrPty" "") ∧
      merged "Clnt" = none ∧ merged "Brkr" = none := by
  simp only [classifyAndEncode, get_ctrpty_xferdt] at h
  split at h
  · exact Except.noConfusion h
  · simp only [hb, Bool.false_eq_true, if_false] at h
    obtain ⟨d6, hline, hagree⟩ := encodeTail_ok _ _ _ _ h
    refine ⟨_, hline, Dict.insert_self _ _ _, ?_, ?_, ?_⟩
    · rw [union_tp_get _ _ _ (by decide) (by decide),
        hagree "CtrPty" (by decide) (by decide) (by decide),
        Dict.erase_ne _ _ _ (by decide), Dict.erase_ne _ _ _ (by decide), Dict.insert_self]
    · rw [union_tp_get _ _ _ (by decide) (by decide),
        hagree "Clnt" (by decide) (by decide) (by decide),
        Dict.erase_ne _ _ _ (by decide), Dict.erase_self]
    · rw [union_tp_get _ _ _ (by decide) (by decide),
        hagree "Brkr" (by decide) (by decide) (by decide), Dict.erase_self]

theorem classifyAndEncode_ok_valid (d1 : Dict) (line : String)
    (h : classifyAndEncode d1 = .ok line) :
    Dict.get d1 "CtrPty" "" ≠ "" ∧ (Dict.get d1 "CtrPty" "").length = 16 := by
  simp only [classifyAndEncode, get_ctrpty_xferdt] at h
  split at h
  · exact Except.noConfusion h
  case _ hcond =>
    push_neg at hcond
    exact hcond

theorem classifyAndEncode_ctrpty_error (d1 : Dict) :
    (classifyAndEncode d1 = .error (.invalidCtrPty (Dict.get d1 "CtrPty" "")))
      ↔ (Dict.get d1 "CtrPty" "" = "" ∨ (Dict.get d1 "CtrPty" "").length ≠ 16) := by
  constructor
  · intro h
    simp only [classifyAndEncode, get_ctrpty_xferdt] at h
    split at h
    case _ hcond => exact hcond
    case _ hcond =>
      rcases encodeTail_error_shape _ _ _ _ h with ⟨v, hv⟩ | ⟨v, hv⟩ <;>
        exact RowError.noConfusion hv
  · intro hcond
    simp only [classifyAndEncode, get_ctrpty_xferdt]
    rw [if_pos hcond]

theorem processRow_normDt (headers row : List String) (line : String)
    (h : processRow headers row = .ok line) :
    ∃ d1, normDt (Dict.mapVals pTrim (zipDict headers row)) = .ok d1 ∧
      classifyAndEncode d1 = .ok line ∧
      Dict.get d1 "CtrPty" "" = rowCtrPty headers row := by
  unfold processRow at h
  split at h
  · exact Except.noConfusion h
  case _ d1 hn =>
    refine ⟨d1, hn, h, ?_⟩
    unfold rowCtrPty Dict.get
    rw [normDt_ne_dt _ _ hn "CtrPty" (by decide)]

theorem renderTags_append (d : Dict) (l1 l2 : List String) :
    renderTags d (l1 ++ l2) = renderTags d l1 ++ renderTags d l2 := by
  induction l1 with
  | nil => simp [renderTags, String.empty_append]
  | cons k ks ih => simp [renderTags, ih, String.append_assoc]

theorem tagOf_val (d : Dict) (k v : String) (h : d k = some v) :
    tagOf d k = "<" ++ k ++ ">" ++ v ++ "</" ++ k ++ ">" := by
  unfold tagOf Dict.get
  rw [h]
  rfl

/-- Claim C7: canonicalization of the numeric and reference fields.
Quantity "1,234.5" renders as "1234.500" (separators stripped, three
fraction digits), consideration amount "999" as "999.00" (two fraction
digits), reference number "42" as "00000042" and "" as "00000000"; an
empty quantity or amount stays empty; an unparseable quantity or amount
fails with the numeric-format error for that field carrying the offending
value. -/
theorem C7_canonicalization :
    processRow hdrC ["01/01/2025", "INAAAAAABBBBBBBB", "1,234.5", "999", "42"]
      = .ok ("<Tp>4</Tp><Dt>01012025</Dt><Bnfcry>1207650000865934</Bnfcry><ISIN></ISIN>"
          ++ "<Qty>1234.500</Qty><Flg>S</Flg><Trf>X</Trf><Clnt>BBBBBBBB</Clnt>"
          ++ "<Brkr>INAAAAAA</Brkr><Rsn>2</Rsn><Conamt>999.00</Conamt><Paymod>2</Paymod>"
          ++ "<Bnkno></Bnkno><Bnkname></Bnkname><Brnchname></Brnchname>"
          ++ "<Xferdt>01012025</Xferdt><Chqrefno>00000042</Chqrefno>") ∧
    processRow hdrC ["01/01/2025", "INAAAAAABBBBBBBB", "", "", ""]
      = .ok ("<Tp>4</Tp><Dt>01012025</Dt><Bnfcry>1207650000865934</Bnfcry><ISIN></ISIN>"
          ++ "<Qty></Qty><Flg>S</Flg><Trf>X</Trf><Clnt>BBBBBBBB</Clnt>"
          ++ "<Brkr>INAAAAAA</Brkr><Rsn>2</Rsn><Conamt></Conamt><Paymod>2</Paymod>"
          ++ "<Bnkno></Bnkno><Bnkname></Bnkname><Brnchname></Brnchname>"
          ++ "<Xferdt>01012025</Xferdt><Chqrefno>00000000</Chqrefno>") ∧
    processRow hdrC ["01/01/2025", "INAAAAAABBBBBBBB", "abc", "500", ""]
      = .error (.invalidQty "abc") ∧
    processRow hdrC ["01/01/2025", "INAAAAAABBBBBBBB", "", "x1", ""]
      = .error (.invalidConamt "x1") := by
  refine ⟨?_, ?_, ?_, ?_⟩ <;> decide

/-- Claim C8: the sequence allocator, on both backends.  The very first
allocation returns one; a same-day allocation returns exactly one more than
the stored id (so consecutive same-day allocations increase by exactly
one); a date change resets to one regardless of the stored id. -/
theorem C8_allocator :
    (∀ t, get_next_file_id t none = (1, ⟨1, t⟩)) ∧
    (∀ t c, c.last_date = t →
      get_next_file_id t (some c) = (c.last_id + 1, ⟨c.last_id + 1, t⟩)) ∧
    (∀ t c, c.last_date ≠ t → get_next_file_id t (some c) = (1, ⟨1, t⟩)) ∧
    (∀ t s, (get_next_file_id t (some (get_next_file_id t s).2)).1
      = (get_next_file_id t s).1 + 1) ∧
    (∀ t, get_file_counter t none = (1, ⟨some 1, some t⟩)) ∧
    (∀ t j n, j.last_date = some t → j.last_id = some n →
      get_file_counter t (some j) = (n + 1, ⟨some (n + 1), some t⟩)) ∧
    (∀ t j, j.last_date ≠ some t → get_file_counter t (some j) = (1, ⟨some 1, some t⟩)) ∧
    (∀ t s, (get_file_counter t (some (get_file_counter t s).2)).1
      = (get_file_counter t s).1 + 1) := by
  refine ⟨fun t => rfl, ?_, ?_, ?_, fun t => rfl, ?_, ?_, ?_⟩
  · intro t c h
    simp [get_next_file_id, h]
  · intro t c h
    simp [get_next_file_id, h]
  · intro t s
    cases s with
    | none => simp [get_next_file_id]
    | some c =>
      by_cases hd : c.last_date = t <;> simp [get_next_file_id, hd]
  · intro t j n hd hi
    simp [get_file_counter, hd, hi]
  · intro t j hd
    simp [get_file_counter, hd]
  · intro t s
    cases s with
    | none => simp [get_file_counter]
    | some j =>
      by_cases hd : j.last_date = some t <;> simp [get_file_counter, hd]

/-- Witness for C8 at concrete states: a day change resets to one, a
same-day call increments by one, on both backends. -/
theorem C8_allocator_witness :
    get_next_file_id "2025-01-02" (some ⟨41, "2025-01-01"⟩) = (1, ⟨1, "2025-01-02"⟩) ∧
    get_next_file_id "2025-01-01" (some ⟨41, "2025-01-01"⟩) = (42, ⟨42, "2025-01-01"⟩) ∧
    get_file_counter "2025-01-02" (some ⟨some 41, some "2025-01-01"⟩)
      = (1, ⟨some 1, some "2025-01-02"⟩) ∧
    get_file_counter "2025-01-01" (some ⟨some 41, some "2025-01-01"⟩)
      = (42, ⟨some 42, some "2025-01-01"⟩) :=
  ⟨C8_allocator.2.2.1 _ _ (by decide),
   C8_allocator.2.1 _ _ (by decide),
   C8_allocator.2.2.2.2.2.2.1 _ _ (by decide),
   C8_allocator.2.2.2.2.2.1 _ _ 41 (by decide) (by decide)⟩

/-- Counterexample to claim C1: on a batch whose only failure is an invalid
counter-party identifier, processing starts from a state with no counter
row, aborts with the row error, and yet the sequence counter has been
created and consumed (sequence id one is used up), contradicting the
claimed atomicity for every validation error. -/
theorem C1_counterexample :
    (upload_csv idHash dJan1 csvBadCtr stInit0).1 = .rowFailed (.invalidCtrPty "SHORT") ∧
    stInit0.counter = none ∧
    (upload_csv idHash dJan1 csvBadCtr stInit0).2.counter = some ⟨1, "2025-01-01"⟩ :=
  ⟨by decide, rfl, by decide⟩

/-- Counterexample to claim C2: for a batch whose first-row transaction
date normalizes to 01022024, converted on calendar day 07052025, the
envelope header line carries the artifact-creation date 07052025, not the
issue date 01022024 the claim asserts. -/
theorem C2_counterexample :
    (validateBatch csvIssue).toOption.map (fun x => x.2.2) = some "01022024" ∧
    runIssue.1 = .success artIssue ∧
    (splitlines artIssue.content).head?
      = some (RAW_HEADER_PFX ++ " " ++ "000001" ++ "00001" ++ "07052025") ∧
    (RAW_HEADER_PFX ++ " " ++ "000001" ++ "00001" ++ "07052025")
      ≠ (RAW_HEADER_PFX ++ " " ++ "000001" ++ "00001" ++ "01022024") :=
  ⟨by decide, by decide, by decide, by decide⟩

/-- Counterexample to claim C4: a data row with three fields under a
two-field header (ragged columns) is not rejected with the format error;
the upload succeeds, the extra field being silently dropped by the
positional zip. -/
theorem C4_counterexample :
    ((splitlines csvRagged).map csvReadLine).map List.length = [2, 3] ∧
    isSuccessB (upload_csv idHash dJan1 csvRagged stInit0).1 = true ∧
    (upload_csv idHash dJan1 csvRagged stInit0).1 ≠ .validationFailed .formatInvalid :=
  ⟨by decide, by decide, by decide⟩

/-- Counterexample to claim C9: the batch whose first row is dated
01/02/2024 and whose second row is dated 02-01-2024 is not accepted: under
day-first parsing the second date is 2 January 2024, normalizing to
02012024, which differs from 01022024, so the batch is rejected with the
date-mismatch error. -/
theorem C9_counterexample :
    parseDayFirst "01/02/2024" = some ⟨2024, 2, 1⟩ ∧
    parseDayFirst "02-01-2024" = some ⟨2024, 1, 2⟩ ∧
    (upload_csv idHash dJan1 csvMix stInit0).1
      = .validationFailed (.dateErr (.mismatch "02012024" "01022024")) ∧
    isSuccessB (upload_csv idHash dJan1 csvMix stInit0).1 = false :=
  ⟨by decide, by decide, by decide, by decide⟩

/-- Claim C5: a row is rejected with the invalid counter-party error,
carrying the offending (stripped) identifier value, exactly when that value
is absent or empty (both read as the empty string) or its length is not 16
characters — independently of its leading characters.  The hypothesis fixes
the date step of the row to have succeeded, since an unparseable row date
aborts earlier. -/
theorem C5_counterparty_check (headers row : List String) (d1 : Dict)
    (hdt : normDt (Dict.mapVals pTrim (zipDict headers row)) = .ok d1) :
    (processRow headers row = .error (.invalidCtrPty (rowCtrPty headers row)))
      ↔ (rowCtrPty headers row = "" ∨ (rowCtrPty headers row).length ≠ 16) := by
  have hct : Dict.get d1 "CtrPty" "" = rowCtrPty headers row := by
    unfold rowCtrPty Dict.get
    rw [normDt_ne_dt _ _ hdt "CtrPty" (by decide)]
  simp only [processRow, hdt]
  rw [← hct]
  exact classifyAndEncode_ctrpty_error d1

/-- Witness for C5: a length-15 identifier starting with IN is rejected,
the error carrying the offending value. -/
theorem C5_witness :
    rowCtrPty hdr2 row15 = "INAAAAABBBBBBBB" ∧
    (rowCtrPty hdr2 row15).length = 15 ∧
    processRow hdr2 row15 = .error (.invalidCtrPty (rowCtrPty hdr2 row15)) :=
  ⟨by decide, by decide,
   (C5_counterparty_check hdr2 row15 d1W rfl).mpr (by decide)⟩

/-- Claim C6: for every successfully encoded row, if the 16-character
identifier starts with IN (the Depository-A designation) the line contains
the Clnt tag holding the last 8 characters and the Brkr tag holding the
first 8 characters, and the line is rendered over the NSDL tag order, which
does not contain the whole-identifier CtrPty tag; for every other valid
identifier the line contains the whole identifier in the CtrPty tag and is
rendered over the CDSL tag order, which contains neither Brkr nor Clnt —
so no broker or client value can be emitted even if present upstream. -/
theorem C6_identifier_split (headers row : List String) (line : String)
    (h : processRow headers row = .ok line) :
    (strStartsWith (rowCtrPty headers row) "IN" = true →
      (∃ p q, line = p ++ ("<Clnt>" ++ strDrop (rowCtrPty headers row) 8 ++ "</Clnt>" ++
        "<Brkr>" ++ strTake (rowCtrPty headers row) 8 ++ "</Brkr>") ++ q) ∧
      (∃ d : Dict, line = renderTags d RAW_ORDER_NSDL) ∧
      "CtrPty" ∉ RAW_ORDER_NSDL) ∧
    (strStartsWith (rowCtrPty headers row) "IN" = false →
      (∃ p q, line = p ++ ("<CtrPty>" ++ rowCtrPty headers row ++ "</CtrPty>") ++ q) ∧
      (∃ d : Dict, line = renderTags d RAW_ORDER_CDSL) ∧
      "Brkr" ∉ RAW_ORDER_CDSL ∧ "Clnt" ∉ RAW_ORDER_CDSL) := by
  obtain ⟨d1, hn, hc, hct⟩ := processRow_normDt headers row line h
  constructor
  · intro hb
    obtain ⟨merged, hline, htp, hclnt, hbrkr⟩ :=
      classifyAndEncode_ok_nsdl d1 line (by rw [hct]; exact hb) hc
    rw [hct] at hclnt hbrkr
    refine ⟨?_, ⟨merged, hline⟩, by decide⟩
    refine ⟨renderTags merged ["Tp", "Dt", "Bnfcry", "ISIN", "Qty", "Flg", "Trf"],
      renderTags merged ["Rsn", "Conamt", "Paymod", "Bnkno", "Bnkname", "Brnchname",
        "Xferdt", "Chqrefno"], ?_⟩
    rw [hline,
      show RAW_ORDER_NSDL = ["Tp", "Dt", "Bnfcry", "ISIN", "Qty", "Flg", "Trf"] ++
        ("Clnt" :: "Brkr" :: ["Rsn", "Conamt", "Paymod", "Bnkno", "Bnkname", "Brnchname",
          "Xferdt", "Chqrefno"]) from rfl,
      renderTags_append]
    rw [show ∀ ks, renderTags merged ("Clnt" :: "Brkr" :: ks)
        = tagOf merged "Clnt" ++ (tagOf merged "Brkr" ++ renderTags merged ks)
      from fun ks => rfl]
    rw [tagOf_val merged "Clnt" _ hclnt, tagOf_val merged "Brkr" _ hbrkr]
    simp only [String.append_assoc]
    rfl
  · intro hb
    obtain ⟨merged, hline, htp, hctr, hclnt, hbrkr⟩ :=
      classifyAndEncode_ok_cdsl d1 line (by rw [hct]; exact hb) hc
    rw [hct] at hctr
    refine ⟨?_, ⟨merged, hline⟩, by decide, by decide⟩
    refine ⟨renderTags merged ["Tp", "Dt", "Bnfcry"],
      renderTags merged ["ISIN", "Qty", "Flg", "Trf", "Rsn", "Conamt", "Paymod",
        "Bnkno", "Bnkname", "Brnchname", "Xferdt", "Chqrefno"], ?_⟩
    rw [hline,
      show RAW_ORDER_CDSL = ["Tp", "Dt", "Bnfcry"] ++
        ("CtrPty" :: ["ISIN", "Qty", "Flg", "Trf", "Rsn", "Conamt", "Paymod",
          "Bnkno", "Bnkname", "Brnchname", "Xferdt", "Chqrefno"]) from rfl,
      renderTags_append]
    rw [show ∀ ks, renderTags merged ("CtrPty" :: ks)
        = tagOf merged "CtrPty" ++ renderTags merged ks from fun ks => rfl]
    rw [tagOf_val merged "CtrPty" _ hctr]
    simp only [String.append_assoc]
    rfl

/-- Witness for C6 at a concrete NSDL row: the encoded line carries the
split Clnt and Brkr tags and the NSDL order has no CtrPty tag. -/
theorem C6_witness :
    (∃ p q, lineC6 = p ++ ("<Clnt>" ++ strDrop (rowCtrPty hdrC rowC6) 8 ++ "</Clnt>" ++
      "<Brkr>" ++ strTake (rowCtrPty hdrC rowC6) 8 ++ "</Brkr>") ++ q) ∧
    "CtrPty" ∉ RAW_ORDER_NSDL :=
  ⟨((C6_identifier_split hdrC rowC6 lineC6 rfl).1 (by decide)).1,
   ((C6_identifier_split hdrC rowC6 lineC6 rfl).1 (by decide)).2.2⟩

/-- Claim C10: the Depository-A test is the case-sensitive check that the
identifier starts with the two characters IN; the encoded line always opens
with the Tp tag holding the fixed string 4 when the test holds and the
distinct fixed string 5 otherwise, and a non-IN identifier (for example one
starting with lowercase in) is kept whole in the CtrPty tag. -/
theorem C10_case_sensitive (headers row : List String) (line : String)
    (h : processRow headers row = .ok line) :
    (∃ q, line = "<Tp>" ++ (if strStartsWith (rowCtrPty headers row) "IN" = true
      then "4" else "5") ++ "</Tp>" ++ q) ∧
    (strStartsWith (rowCtrPty headers row) "IN" = false →
      ∃ p q, line = p ++ ("<CtrPty>" ++ rowCtrPty headers row ++ "</CtrPty>") ++ q) ∧
    strStartsWith "inAAAAAABBBBBBBB" "IN" = false ∧
    strStartsWith "INAAAAAABBBBBBBB" "IN" = true ∧
    ("4" : String) ≠ "5" := by
  obtain ⟨d1, hn, hc, hct⟩ := processRow_normDt headers row line h
  refine ⟨?_, ?_, by decide, by decide, by decide⟩
  · by_cases hb : strStartsWith (rowCtrPty headers row) "IN" = true
    · obtain ⟨merged, hline, htp, _, _⟩ :=
        classifyAndEncode_ok_nsdl d1 line (by rw [hct]; exact hb) hc
      rw [if_pos hb]
      refine ⟨renderTags merged ["Dt", "Bnfcry", "ISIN", "Qty", "Flg", "Trf", "Clnt",
        "Brkr", "Rsn", "Conamt", "Paymod", "Bnkno", "Bnkname", "Brnchname",
        "Xferdt", "Chqrefno"], ?_⟩
      rw [hline,
        show RAW_ORDER_NSDL = "Tp" :: ["Dt", "Bnfcry", "ISIN", "Qty", "Flg", "Trf",
          "Clnt", "Brkr", "Rsn", "Conamt", "Paymod", "Bnkno", "Bnkname", "Brnchname",
          "Xferdt", "Chqrefno"] from rfl,
        show ∀ ks, renderTags merged ("Tp" :: ks) = tagOf merged "Tp" ++ renderTags merged ks
          from fun ks => rfl,
        tagOf_val merged "Tp" _ htp]
      simp only [String.append_assoc]
      rfl
    · have hbf : strStartsWith (rowCtrPty headers row) "IN" = false := by
        revert hb
        cases strStartsWith (rowCtrPty headers row) "IN" <;> simp
      obtain ⟨merged, hline, htp, _, _, _⟩ :=
        classifyAndEncode_ok_cdsl d1 line (by rw [hct]; exact hbf) hc
      rw [if_neg hb]
      refine ⟨renderTags merged ["Dt", "Bnfcry", "CtrPty", "ISIN", "Qty", "Flg", "Trf",
        "Rsn", "Conamt", "Paymod", "Bnkno", "Bnkname", "Brnchname",
        "Xferdt", "Chqrefno"], ?_⟩
      rw [hline,
        show RAW_ORDER_CDSL = "Tp" :: ["Dt", "Bnfcry", "CtrPty", "ISIN", "Qty", "Flg",
          "Trf", "Rsn", "Conamt", "Paymod", "Bnkno", "Bnkname", "Brnchname",
          "Xferdt", "Chqrefno"] from rfl,
        show ∀ ks, renderTags merged ("Tp" :: ks) = tagOf merged "Tp" ++ renderTags merged ks
          from fun ks => rfl,
        tagOf_val merged "Tp" _ htp]
      simp only [String.append_assoc]
      rfl
  · intro hb
    obtain ⟨merged, hline, htp, hctr, _, _⟩ :=
      classifyAndEncode_ok_cdsl d1 line (by rw [hct]; exact hb) hc
    rw [hct] at hctr
    refine ⟨renderTags merged ["Tp", "Dt", "Bnfcry"],
      renderTags merged ["ISIN", "Qty", "Flg", "Trf", "Rsn", "Conamt", "Paymod",
        "Bnkno", "Bnkname", "Brnchname", "Xferdt", "Chqrefno"], ?_⟩
    rw [hline,
      show RAW_ORDER_CDSL = ["Tp", "Dt", "Bnfcry"] ++
        ("CtrPty" :: ["ISIN", "Qty", "Flg", "Trf", "Rsn", "Conamt", "Paymod",
          "Bnkno", "Bnkname", "Brnchname", "Xferdt", "Chqrefno"]) from rfl,
      renderTags_append,
      show ∀ ks, renderTags merged ("CtrPty" :: ks)
        = tagOf merged "CtrPty" ++ renderTags merged ks from fun ks => rfl,
      tagOf_val merged "CtrPty" _ hctr]
    simp only [String.append_assoc]
    rfl

/-- Witness for C10 at a concrete row with a lowercase in identifier: the
line opens with the type code for Depository-B and keeps the identifier
whole. -/
theorem C10_witness :
    (∃ q, lineC10 = "<Tp>" ++ (if strStartsWith (rowCtrPty hdrC rowC10) "IN" = true
      then "4" else "5") ++ "</Tp>" ++ q) ∧
    (∃ p q, lineC10 = p ++ ("<CtrPty>" ++ rowCtrPty hdrC rowC10 ++ "</CtrPty>") ++ q) ∧
    rowCtrPty hdrC rowC10 = "inAAAAAABBBBBBBB" :=
  ⟨(C10_case_sensitive hdrC rowC10 lineC10 rfl).1,
   (C10_case_sensitive hdrC rowC10 lineC10 rfl).2.1 (by decide),
   by decide⟩

/-! ### Upload-level lemmas and theorems -/

theorem upload_duplicate_hit (hash : String → String) (t : Date) (csv : String)
    (st : ServerState) (a : Artifact) (h : st.index (hash csv) = some a) :
    upload_csv hash t csv st = (.duplicate a, st) := by
  simp only [upload_csv, h]

theorem upload_success_index (hash : String → String) (t : Date) (csv : String)
    (st : ServerState) (a : Artifact) (st' : ServerState)
    (h : upload_csv hash t csv st = (.success a, st')) :
    st'.index (hash csv) = some a := by
  simp only [upload_csv] at h
  split at h
  · simp at h
  · split at h
    · simp at h
    · split at h
      · simp at h
      · simp only [Prod.mk.injEq, UploadResult.success.injEq] at h
        obtain ⟨h1, h2⟩ := h
        subst h1
        subst h2
        simp

/-- Claim C3: after a successful submission, resubmitting the byte-identical
raw input at any later calendar date returns the previously produced
artifact and leaves the whole server state untouched: the dedup lookup
happens before parsing and sequence allocation, so the counter does not
advance and nothing is re-encoded. -/
theorem C3_resubmission (hash : String → String) (t1 t2 : Date) (csv : String)
    (st : ServerState) (a : Artifact) (st1 : ServerState)
    (h : upload_csv hash t1 csv st = (.success a, st1)) :
    upload_csv hash t2 csv st1 = (.duplicate a, st1) :=
  upload_duplicate_hit hash t2 csv st1 a (upload_success_index hash t1 csv st a st1 h)

/-- Witness for C3: a concrete successful batch resubmitted the next month
is answered from the dedup index with the original artifact and an
unchanged state. -/
theorem C3_witness :
    upload_csv idHash ⟨2025, 2, 2⟩ csvDup st1Dup = (.duplicate artDup, st1Dup) :=
  C3_resubmission idHash dJan1 ⟨2025, 2, 2⟩ csvDup stInit0 artDup st1Dup rfl

/-- Claim C1 amended: errors detected before sequence allocation (format,
missing or invalid or mismatched dates) abort with the server state
completely unchanged; row-level errors detected during encoding (invalid
counter-party identifier, unparseable quantity or consideration amount)
produce no artifact and write no dedup record, but the sequence id has
already been allocated and is consumed. -/
theorem C1_error_state (hash : String → String) (today : Date) (csv : String)
    (st : ServerState) (r : UploadResult) (st' : ServerState)
    (h : upload_csv hash today csv st = (r, st')) :
    (∀ e, r = .validationFailed e → st' = st) ∧
    (∀ e, r = .rowFailed e →
      st'.index = st.index ∧
      st'.counter = some (get_next_file_id today.fmtISO st.counter).2) := by
  simp only [upload_csv] at h
  split at h
  · injection h with h1 h2
    subst h1
    subst h2
    exact ⟨fun e he => UploadResult.noConfusion he, fun e he => UploadResult.noConfusion he⟩
  · split at h
    · injection h with h1 h2
      subst h1
      subst h2
      exact ⟨fun e he => rfl, fun e he => UploadResult.noConfusion he⟩
    · split at h
      · injection h with h1 h2
        subst h1
        subst h2
        exact ⟨fun e he => UploadResult.noConfusion he, fun e he => ⟨rfl, rfl⟩⟩
      · injection h with h1 h2
        subst h1
        subst h2
        exact ⟨fun e he => UploadResult.noConfusion he, fun e he => UploadResult.noConfusion he⟩

/-- Witness for C1 at the invalid counter-party batch: no dedup record is
written but the sequence counter has advanced by one allocation. -/
theorem C1_witness :
    (upload_csv idHash dJan1 csvBadCtr stInit0).2.index = stInit0.index ∧
    (upload_csv idHash dJan1 csvBadCtr stInit0).2.counter
      = some (get_next_file_id dJan1.fmtISO stInit0.counter).2 :=
  (C1_error_state idHash dJan1 csvBadCtr stInit0
      (upload_csv idHash dJan1 csvBadCtr stInit0).1
      (upload_csv idHash dJan1 csvBadCtr stInit0).2 rfl).2
    (.invalidCtrPty "SHORT") (by decide)

/-- Claim C2 amended: for every accepted batch the envelope header line is
the constant literal followed by one space, the 6-digit zero-padded count
of the data rows of the validated batch, the 5-digit sequence id returned
by the allocator for the incoming state, and the 8-digit artifact-creation
calendar date; the filename is built from the same creation date and the
same sequence id, and the content continues with exactly the encoded body
lines and a trailing empty line — the header does not carry the
transaction date of the first row. -/
theorem C2_header (hash : String → String) (today : Date) (csv : String)
    (st : ServerState) (a : Artifact) (st' : ServerState)
    (h : upload_csv hash today csv st = (.success a, st')) :
    ∃ headers data_rows fd body,
      validateBatch csv = .ok (headers, data_rows, fd) ∧
      List.mapM (processRow headers) data_rows = .ok body ∧
      a.filename = "18" ++ Bnfcry ++ "." ++ today.fmtDMY ++ "."
        ++ natZfill (get_next_file_id today.fmtISO st.counter).1 5 ∧
      a.content = joinSep "\n"
        ((RAW_HEADER_PFX ++ " " ++ natZfill data_rows.length 6
          ++ natZfill (get_next_file_id today.fmtISO st.counter).1 5
          ++ today.fmtDMY) :: (body ++ [""])) := by
  simp only [upload_csv] at h
  split at h
  · simp at h
  · split at h
    · simp at h
    case _ headers data_rows fd hv =>
      split at h
      · simp at h
      case _ body hm =>
        simp only [Prod.mk.injEq, UploadResult.success.injEq] at h
        obtain ⟨h1, h2⟩ := h
        subst h1
        exact ⟨headers, data_rows, fd, body, hv, hm, rfl, rfl⟩

/-- Witness for C2 at a one-row batch converted on 7 May 2025: the header
carries the row count of the validated batch, the sequence id allocated
from the fresh state, and the creation date 07052025, which the filename
shares. -/
theorem C2_witness :
    ∃ headers data_rows fd body,
      validateBatch csvIssue = .ok (headers, data_rows, fd) ∧
      List.mapM (processRow headers) data_rows = .ok body ∧
      artIssue.filename = "18" ++ Bnfcry ++ "." ++ Date.fmtDMY ⟨2025, 5, 7⟩ ++ "."
        ++ natZfill (get_next_file_id (Date.fmtISO ⟨2025, 5, 7⟩) stInit0.counter).1 5 ∧
      artIssue.content = joinSep "\n"
        ((RAW_HEADER_PFX ++ " " ++ natZfill data_rows.length 6
          ++ natZfill (get_next_file_id (Date.fmtISO ⟨2025, 5, 7⟩) stInit0.counter).1 5
          ++ Date.fmtDMY ⟨2025, 5, 7⟩) :: (body ++ [""])) :=
  C2_header idHash ⟨2025, 5, 7⟩ csvIssue stInit0 artIssue runIssue.2 rfl

theorem validateRows_ne_format (headers dr1 : List String) (drs : List (List String)) :
    validateRows headers dr1 drs ≠ .error .formatInvalid := by
  unfold validateRows
  split
  · split
    · split
      · exact fun hx => Except.noConfusion hx
      · intro hx
        injection hx with h2
        exact ValidationError.noConfusion h2
    · intro hx
      injection hx with h2
      exact ValidationError.noConfusion h2
  · intro hx
    injection hx with h2
    exact ValidationError.noConfusion h2

theorem validateBatch_short (csv : String)
    (h : ((splitlines csv).map csvReadLine).length < 2) :
    validateBatch csv = .error .formatInvalid := by
  unfold validateBatch
  cases hl : (splitlines csv).map csvReadLine with
  | nil => rfl
  | cons r0 rest =>
    cases rest with
    | nil => rfl
    | cons dr1 drs =>
      rw [hl] at h
      simp only [List.length_cons] at h
      exact absurd h (by omega)

theorem validateBatch_format_len (csv : String)
    (h : validateBatch csv = .error .formatInvalid) :
    ((splitlines csv).map csvReadLine).length < 2 := by
  unfold validateBatch at h
  cases hl : (splitlines csv).map csvReadLine with
  | nil => simp
  | cons r0 rest =>
    cases rest with
    | nil => simp
    | cons dr1 drs =>
      rw [hl] at h
      exact absurd h (validateRows_ne_format _ _ _)

/-- Claim C4 amended: on a fresh (non-duplicate) input the pipeline fails
with the format error exactly when the parsed input has fewer than two rows
(no header, or header with no data); data rows whose column count differs
from the header are never rejected for that reason — the positional zip
silently drops extra fields and leaves missing ones absent. -/
theorem C4_format (hash : String → String) (today : Date) (csv : String)
    (st : ServerState) (hmiss : st.index (hash csv) = none) :
    ((upload_csv hash today csv st).1 = .validationFailed .formatInvalid)
      ↔ ((splitlines csv).map csvReadLine).length < 2 := by
  simp only [upload_csv, hmiss]
  constructor
  · intro hres
    split at hres
    case _ e heq =>
      injection hres with h3
      subst h3
      exact validateBatch_format_len csv heq
    case _ x heq =>
      split at hres
      · injection hres
      · injection hres
  · intro hlen
    have h2 := validateBatch_short csv hlen
    rw [h2]

/-- Witness for C4: a header-only input is rejected with the format error,
matching the two-row bound. -/
theorem C4_witness :
    stInit0.index (idHash "Dt,CtrPty") = none ∧
    (((upload_csv idHash dJan1 "Dt,CtrPty" stInit0).1 = .validationFailed .formatInvalid)
      ↔ ((splitlines "Dt,CtrPty").map csvReadLine).length < 2) :=
  ⟨rfl, C4_format idHash dJan1 "Dt,CtrPty" stInit0 rfl⟩

theorem checkDates_ok_of (headers : List String) (fd : String) (rows : List (List String))
    (hrows : ∀ row ∈ rows, hasTruthy (zipDict headers row) "Dt" = true →
      ∃ dt, parseDayFirst (Dict.get (zipDict headers row) "Dt" "") = some dt ∧
        dt.fmtDMY = fd) :
    checkDates headers fd rows = .ok () := by
  induction rows with
  | nil => rfl
  | cons row rest ih =>
    unfold checkDates
    by_cases hb : hasTruthy (zipDict headers row) "Dt" = true
    · obtain ⟨dt, hp, hf⟩ := hrows row (List.mem_cons_self _ _) hb
      rw [if_pos hb]
      simp only [hp]
      rw [if_neg (show ¬(dt.fmtDMY ≠ fd) from fun hne => hne hf)]
      exact ih (fun r hr => hrows r (List.mem_cons_of_mem _ hr))
    · rw [if_neg hb]
      exact ih (fun r hr => hrows r (List.mem_cons_of_mem _ hr))

/-- Claim C9 amended: row dates are parsed day-first and compared as
normalized ddmmyyyy values.  Under day-first parsing 02-01-2024 is
2 January 2024 while 01/02/2024 is 1 February 2024, so the mixed batch is
rejected with the date-mismatch error carrying 02012024 (not accepted as
the claim asserted); a later row of 03/02/2024 is likewise rejected.  Rows
whose date field is absent or empty are implicitly matching, and a batch
whose truthy dates all normalize to the established date passes the
check. -/
theorem C9_date_validation :
    parseDayFirst "01/02/2024" = some ⟨2024, 2, 1⟩ ∧
    parseDayFirst "02-01-2024" = some ⟨2024, 1, 2⟩ ∧
    (upload_csv idHash dJan1 csvMix stInit0).1
      = .validationFailed (.dateErr (.mismatch "02012024" "01022024")) ∧
    (upload_csv idHash dJan1 csvMix2 stInit0).1
      = .validationFailed (.dateErr (.mismatch "03022024" "01022024")) ∧
    (∀ headers fd rows,
      (∀ row ∈ rows, hasTruthy (zipDict headers row) "Dt" = false) →
      checkDates headers fd rows = .ok ()) ∧
    (∀ headers fd rows,
      (∀ row ∈ rows, hasTruthy (zipDict headers row) "Dt" = true →
        ∃ dt, parseDayFirst (Dict.get (zipDict headers row) "Dt" "") = some dt ∧
          dt.fmtDMY = fd) →
      checkDates headers fd rows = .ok ()) := by
  refine ⟨by decide, by decide, by decide, by decide, ?_, ?_⟩
  · intro headers fd rows hrows
    refine checkDates_ok_of headers fd rows ?_
    intro r hr hb
    rw [hrows r hr] at hb
    exact absurd hb (by decide)
  · intro headers fd rows hrows
    exact checkDates_ok_of headers fd rows hrows

/-- Witness for C9: rows without a date field pass the check, and rows
whose dates all normalize to the established date (written with different
separators) pass as well. -/
theorem C9_witness :
    checkDates ["A"] "x" [["1"], ["2"]] = .ok () ∧
    checkDates ["Dt"] "01022024" [["01/02/2024"], ["01-02-2024"]] = .ok () :=
  ⟨C9_date_validation.2.2.2.2.1 ["A"] "x" [["1"], ["2"]] (by decide),
   C9_date_validation.2.2.2.2.2 ["Dt"] "01022024" [["01/02/2024"], ["01-02-2024"]]
     (by
       intro row hr hb
       rcases List.mem_cons.mp hr with rfl | hr2
       · exact ⟨⟨2024, 2, 1⟩, by decide, by decide⟩
       · rcases List.mem_cons.mp hr2 with rfl | hr3
         · exact ⟨⟨2024, 2, 1⟩, by decide, by decide⟩
         · exact absurd hr3 (List.not_mem_nil _))⟩

end RawFileConverter
